import Mathlib

/-!
Shallow embedding of `aiohttp_json_rpc/auth/django.py` (class
`DjangoAuthBackend`): the session-cookie identity resolver (`get_user`),
the authorization predicate (`_is_authorized`), the generic ORM adapter
(`_model_view` / `_model_add` / `_model_change` / `_model_delete`), the
`login` method and the connection-state rebuild (`prepare_request`).

Python strings are embedded as `List Char`; Python dicts as association
lists with dict-style insertion (`dictSet` replaces the first binding of
an existing key in place, otherwise appends); fallible calls return
`Except` / `Option`; stateful data-store mutation is explicit state
passing.
-/

namespace AiohttpJsonRpc

/-- Python strings, embedded as lists of characters. -/
abbrev Str := List Char

/-- Python `d[k]` lookup on an association list (`None`-free variant:
`Option.none` models the key being absent / `KeyError`). -/
def dictGet {α : Type} : List (Str × α) → Str → Option α
  | [], _ => Option.none
  | p :: rest, k => if p.1 = k then some p.2 else dictGet rest k

/-- Python `d[k] = v`: replace the binding of `k` in place if present,
otherwise append it. -/
def dictSet {α : Type} (d : List (Str × α)) (k : Str) (v : α) : List (Str × α) :=
  match d with
  | [] => [(k, v)]
  | p :: rest => if p.1 = k then (k, v) :: rest else p :: dictSet rest k v

/-- Python `d.pop(k)`'s residue: the dict without the binding of `k`. -/
def dictRemove {α : Type} (d : List (Str × α)) (k : Str) : List (Str × α) :=
  d.filter (fun p => p.1 != k)

/-- Python `s.split(sep)` for a one-character separator: always returns a
non-empty list of (possibly empty) segments. -/
def splitOnChar (c : Char) : Str → List Str
  | [] => [[]]
  | x :: xs =>
    match splitOnChar c xs with
    | [] => [[]]
    | y :: ys => if x = c then [] :: y :: ys else (x :: y) :: ys

theorem dictGet_set_self {α : Type} (d : List (Str × α)) (k : Str) (v : α) :
    dictGet (dictSet d k v) k = some v := by
  induction d with
  | nil => simp [dictGet, dictSet]
  | cons p rest ih =>
    by_cases h : p.1 = k
    · simp [dictSet, h, dictGet]
    · simp [dictSet, h, dictGet, ih]

theorem dictGet_set_ne {α : Type} (d : List (Str × α)) (k k' : Str) (v : α)
    (h : k' ≠ k) : dictGet (dictSet d k v) k' = dictGet d k' := by
  have hk : k ≠ k' := fun hh => h hh.symm
  induction d with
  | nil => simp [dictGet, dictSet, hk]
  | cons p rest ih =>
    by_cases hp : p.1 = k
    · have hp' : p.1 ≠ k' := by rw [hp]; exact hk
      simp [dictSet, hp, dictGet, hk, hp']
    · by_cases hp' : p.1 = k'
      · simp [dictSet, hp, dictGet, hp', h]
      · simp [dictSet, hp, dictGet, hp', ih]

/-- Python scalar values appearing in JSON-RPC params and model fields. -/
inductive PyScalar where
  | none
  | bool (b : Bool)
  | int (n : Int)
  | str (s : Str)
deriving DecidableEq

/-- A Python value delivered as the `params` member of a JSON-RPC message:
a scalar, a list of scalars, or a dict mapping strings to scalars. -/
inductive PyValue where
  | scalar (s : PyScalar)
  | list (xs : List PyScalar)
  | dict (xs : List (Str × PyScalar))
deriving DecidableEq

/-- Python truthiness of a `PyValue` (`None`, `False`, `0`, `''`, `[]`,
`{}` are falsy). -/
def pyTruthy : PyValue → Bool
  | .scalar .none => false
  | .scalar (.bool b) => b
  | .scalar (.int n) => n != 0
  | .scalar (.str s) => !s.isEmpty
  | .list xs => !xs.isEmpty
  | .dict xs => !xs.isEmpty

/-- Python `str(x)` on a scalar (total). -/
def pyToStr : PyScalar → Str
  | .none => "None".data
  | .bool true => "True".data
  | .bool false => "False".data
  | .int n => (toString n).data
  | .str s => s

/-- Python `v[k]` subscripting on a `PyValue`: succeeds only on a dict
holding the key; `Option.none` covers both `KeyError` (dict without the
key) and `TypeError` (non-dict), which `login` catches identically. -/
def pyGetItem (v : PyValue) (k : Str) : Option PyScalar :=
  match v with
  | .dict d => dictGet d k
  | _ => Option.none

/-- A Django user as the authorization code observes it: the normalized
`is_active` / `is_authenticated` / `is_superuser` flags and the resolved
permission set (`get_all_permissions()` output for an active user). -/
structure UserRec where
  is_active : Bool
  is_authenticated : Bool
  is_superuser : Bool
  permissions : List Str
deriving DecidableEq

/-- The resolved caller: `AnonymousUser()` or a stored user. -/
inductive Identity where
  | anonymous
  | user (u : UserRec)
deriving DecidableEq

namespace Identity

/-- `user.is_active`; Django's `AnonymousUser.is_active` is `False`. -/
def is_active : Identity → Bool
  | .anonymous => false
  | .user u => u.is_active

/-- `user.is_authenticated`, normalized across the method/boolean Django
APIs (the `_user_is_authenticated` helper); `False` for anonymous. -/
def is_authenticated : Identity → Bool
  | .anonymous => false
  | .user u => u.is_authenticated

/-- `user.is_superuser`; `False` for anonymous. -/
def is_superuser : Identity → Bool
  | .anonymous => false
  | .user u => u.is_superuser

/-- `user.get_all_permissions()`: Django's `ModelBackend` returns the
empty set for anonymous or inactive users. -/
def get_all_permissions : Identity → List Str
  | .anonymous => []
  | .user u => if u.is_active then u.permissions else []

end Identity

/-- Authorization metadata hung on a method or topic callable:
`login_required` models `hasattr(method, 'login_required')`;
`permissions_required` and `tests` are `Option` because the code tests
attribute presence with `hasattr`. -/
structure MethodMeta where
  login_required : Bool
  permissions_required : Option (List Str)
  tests : Option (List (Identity → Bool))

/-- `user.has_perms(perms)`: every required permission is in the user's
resolved permission set (empty for anonymous/inactive users, matching
Django's `ModelBackend`); `has_perms([])` is `True`. -/
def hasPerms (u : Identity) (perms : List Str) : Bool :=
  perms.all (fun p => u.get_all_permissions.contains p)

/-- `DjangoAuthBackend._is_authorized`: login-required gate, then
permission gate (skipped for superusers), then predicate tests (skipped
for superusers). -/
def _is_authorized (user : Identity) (method : MethodMeta) : Bool :=
  if method.login_required && (!user.is_active || !user.is_authenticated) then
    false
  else if method.permissions_required.isSome && !user.is_superuser
      && !(hasPerms user (method.permissions_required.getD [])) then
    false
  else if method.tests.isSome && !user.is_superuser then
    (method.tests.getD []).all (fun t => t user)
  else
    true

/-- Python exceptions the adapter code distinguishes: `KeyError` (the one
`_model_change` catches), Django's `DoesNotExist`, database errors,
field-lookup errors, and attribute/type errors on non-dict params. -/
inductive PyExc where
  | keyError
  | doesNotExist
  | dbError
  | fieldError
  | attributeError
deriving DecidableEq

/-- A stored model object: primary key plus field dict. -/
structure Record where
  pk : PyScalar
  fields : List (Str × PyScalar)
deriving DecidableEq

/-- The data-store capability the generic adapter calls into
(`model.objects.*`); every call may raise. `deleteMatching` and `save`
return the store's record list after the mutation (explicit state
passing for the Python in-place mutation). -/
structure DataModel where
  filter : List (Str × PyScalar) → Except PyExc (List Record)
  deleteMatching : List (Str × PyScalar) → Except PyExc (List Record)
  create : List (Str × PyScalar) → Except PyExc Record
  getByPk : PyScalar → Except PyExc Record
  save : Record → Except PyExc (List Record)

/-- Result of an adapter coroutine: normal return, `RpcInvalidParamsError`,
or an uncaught Python exception propagating out. -/
inductive Outcome (α : Type) where
  | ok (a : α)
  | invalidParams
  | exc (e : PyExc)
deriving DecidableEq

/-- `DjangoAuthBackend.dump_model_object`: `model_to_dict(obj)` plus
`d['pk'] = obj.pk`. -/
def dump_model_object (obj : Record) : List (Str × PyScalar) :=
  dictSet obj.fields "pk".data obj.pk

/-- `DjangoAuthBackend._model_view`: `params or {}`, dict check, then
`model.objects.filter(**lookups)` with every store exception converted
to `RpcInvalidParamsError`. `params` is the value the protocol layer
delivers for the message's `params` member. -/
def _model_view (model : DataModel) (params : PyValue) :
    Outcome (List (List (Str × PyScalar))) :=
  let lookups := if pyTruthy params then params else .dict []
  match lookups with
  | .dict l =>
    match model.filter l with
    | .ok objs => .ok (objs.map dump_model_object)
    | .error _ => .invalidParams
  | _ => .invalidParams

/-- `DjangoAuthBackend._model_delete`: `params or {}`, dict check, then
`model.objects.filter(**lookups).delete()` with every store exception
converted to `RpcInvalidParamsError`; returns `True` and the remaining
records. -/
def _model_delete (model : DataModel) (params : PyValue) :
    Outcome (Bool × List Record) :=
  let lookups := if pyTruthy params then params else .dict []
  match lookups with
  | .dict l =>
    match model.deleteMatching l with
    | .ok remaining => .ok (true, remaining)
    | .error _ => .invalidParams
  | _ => .invalidParams

/-- `DjangoAuthBackend._model_add`: `params or {}`, dict-and-non-empty
check, then `model.objects.create(**values)` with every store exception
converted to `RpcInvalidParamsError`. -/
def _model_add (model : DataModel) (params : PyValue) :
    Outcome (List (Str × PyScalar)) :=
  let values := if pyTruthy params then params else .dict []
  match values with
  | .dict l =>
    if l.isEmpty then .invalidParams
    else
      match model.create l with
      | .ok obj => .ok (dump_model_object obj)
      | .error _ => .invalidParams
  | _ => .invalidParams

/-- The `setattr(model_object, field_name, value)` loop of
`_model_change`. -/
def applyParams (fields : List (Str × PyScalar))
    (updates : List (Str × PyScalar)) : List (Str × PyScalar) :=
  updates.foldl (fun fs kv => dictSet fs kv.1 kv.2) fields

/-- `DjangoAuthBackend._model_change`: `params.pop('pk')`, primary-key
lookup, `setattr` loop, `save()`. Only `KeyError` is caught and turned
into `RpcInvalidParamsError` (the `except KeyError` clause); any other
exception — `DoesNotExist` from the lookup, a database error from
`save()`, an `AttributeError` from `.pop` on a non-dict — propagates.
Returns `True` and the store after `save`. -/
def _model_change (model : DataModel) (params : PyValue) :
    Outcome (Bool × List Record) :=
  match params with
  | .dict l =>
    match dictGet l "pk".data with
    | Option.none => .invalidParams
    | some pk =>
      match model.getByPk pk with
      | .error PyExc.keyError => .invalidParams
      | .error e => .exc e
      | .ok obj =>
        let obj2 : Record :=
          { obj with fields := applyParams obj.fields (dictRemove l "pk".data) }
        match model.save obj2 with
        | .error PyExc.keyError => .invalidParams
        | .error e => .exc e
        | .ok newRecords => .ok (true, newRecords)
  | _ => .exc PyExc.attributeError

/-- Whether a record satisfies a keyword-filter criteria dict: every
`field=value` pair matches the record's field. -/
def recordMatches (r : Record) (criteria : List (Str × PyScalar)) : Bool :=
  criteria.all (fun kv => dictGet r.fields kv.1 == some kv.2)

/-- Modelled from the spec: the `DataModel` capability of §6 (the Django
ORM itself is outside `src/`), instantiated over an explicit record
list: `filter(criteria)` returns the records matching every criterion
(so an empty criteria dict matches every record), `delete_matching`
removes them, `get_by_primary_key` finds by `pk` or raises
`DoesNotExist`, `save` writes the record back by `pk`. -/
def listModel (records : List Record) : DataModel where
  filter := fun c => .ok (records.filter (fun r => recordMatches r c))
  deleteMatching := fun c => .ok (records.filter (fun r => !(recordMatches r c)))
  create := fun fields => .ok { pk := .int 0, fields := fields }
  getByPk := fun pk =>
    match records.find? (fun r => r.pk == pk) with
    | some r => .ok r
    | Option.none => .error .doesNotExist
  save := fun r => .ok (records.map (fun r0 => if r0.pk == r.pk then r else r0))

/-- The session/identity store `get_user` reads: decoded sessions
(`session_key ↦ optional '_auth_user_id'`) and stored users (keyed by
primary key). -/
structure SessionStore where
  sessions : List (Str × Option Str)
  users : List (Str × UserRec)

/-- The cookie name, `settings.SESSION_COOKIE_NAME` (`'sessionid'`). -/
def sessionidName : Str := "sessionid".data

/-- `DjangoAuthBackend.get_user`: read the `sessionid` cookie (walrus
assignment: an absent cookie defaults to `''`, and an empty value skips
the lookup); look the session up, decode the user id, look the user up;
`Session.DoesNotExist` and `User.DoesNotExist` both fall through to
`AnonymousUser()`. Total: never raises. -/
def get_user (store : SessionStore) (cookies : List (Str × Str)) : Identity :=
  let session_key := (dictGet cookies sessionidName).getD []
  if session_key ≠ [] then
    match dictGet store.sessions session_key with
    | Option.none => Identity.anonymous
    | some uidOpt =>
      match uidOpt.bind (fun uid => dictGet store.users uid) with
      | some u => Identity.user u
      | Option.none => Identity.anonymous
  else Identity.anonymous

/-- What a `request.methods` entry is bound to: the backend's built-in
`JsonRpcMethod(self.login)`, the generic CRUD dispatcher
`JsonRpcMethod(self.handle_orm_call)`, or a statically registered RPC
method (carrying its metadata). -/
inductive MethodHandle where
  | loginMethod
  | ormCall
  | registered (m : MethodMeta)

/-- The process-wide registries: `request.rpc.methods` (name ↦ method
metadata) and `request.rpc.topics`. -/
structure Rpc where
  methods : List (Str × MethodMeta)
  topics : List (Str × MethodMeta)

/-- The per-connection state `prepare_request` writes onto the request:
`request.user`, `request.methods`, `request.topics`,
`request.subscriptions`. -/
structure ConnState where
  user : Identity
  methods : List (Str × MethodHandle)
  topics : Finset Str
  subscriptions : Finset Str

/-- The name of the built-in login method. -/
def loginName : Str := "login".data

/-- The action segment of a permission name:
`permission_name.split('.')[1].split('_')[0]`. `Option.none` models the
`IndexError` the subscript raises when the name has no `'.'`. -/
def ormAction (p : Str) : Option Str :=
  ((splitOnChar '.' p).get? 1).map (fun seg => (splitOnChar '_' seg).headD [])

/-- The action whitelist `('view', 'add', 'change', 'delete')`. -/
def ormActions : List Str :=
  ["view".data, "add".data, "change".data, "delete".data]

/-- The synthesized method name `f'db__{permission_name}'`. -/
def dbName (p : Str) : Str := "db__".data ++ p

/-- Whether a permission name produces a generic ORM method: its action
segment parses and is whitelisted. -/
def permAllowed (p : Str) : Bool :=
  match ormAction p with
  | some a => ormActions.contains a
  | Option.none => false

/-- The generic-ORM loop of `prepare_request`: for each permission,
compute the action segment (raising, i.e. `Option.none`, on a dotless
name) and bind `db__<permission>` to the CRUD dispatcher when the action
is whitelisted. -/
def addOrmMethods : List Str → List (Str × MethodHandle) →
    Option (List (Str × MethodHandle))
  | [], d => some d
  | p :: ps, d =>
    match ormAction p with
    | Option.none => Option.none
    | some a =>
      addOrmMethods ps
        (if ormActions.contains a then dictSet d (dbName p) MethodHandle.ormCall else d)

/-- The `if not user:` block of `prepare_request`: take the caller's user
when one was passed, otherwise resolve it from the session cookie via
`get_user`. -/
def resolve_user (store : SessionStore) (cookies : List (Str × Str)) :
    Option Identity → Identity
  | some u => u
  | Option.none => get_user store cookies

/-- `DjangoAuthBackend.prepare_request`: resolve the user when the caller
passed none (`get_user`, dispatched to the worker pool — the dispatch
itself is a scheduling concern not modelled here); start `request.methods`
with the built-in `login` entry iff the user is anonymous; synthesize
generic ORM methods from the permission set when enabled; add every
authorized registered method and topic; and intersect the previous
subscriptions (defaulting to the empty set when the request had none)
with the new topic set. `Option.none` is the `IndexError` escaping from
the permission-name split. -/
def prepare_request (generic_orm_methods : Bool) (rpc : Rpc)
    (store : SessionStore) (cookies : List (Str × Str))
    (userArg : Option Identity) (prevSubs : Option (Finset Str)) :
    Option ConnState :=
  let user := resolve_user store cookies userArg
  let methods0 : List (Str × MethodHandle) :=
    if user = Identity.anonymous then dictSet [] loginName MethodHandle.loginMethod
    else []
  (if generic_orm_methods then addOrmMethods user.get_all_permissions methods0
   else some methods0).map
    (fun methods1 =>
      let methods2 := rpc.methods.foldl
        (fun d nm =>
          if _is_authorized user nm.2 then dictSet d nm.1 (MethodHandle.registered nm.2)
          else d)
        methods1
      let topics := rpc.topics.foldl
        (fun s nt => if _is_authorized user nt.2 then insert nt.1 s else s)
        (∅ : Finset Str)
      { user := user, methods := methods2, topics := topics,
        subscriptions := topics ∩ prevSubs.getD ∅ })

/-- The externally observable effects of a `login` call: session keys
saved to the session store, cookies set on the websocket, and the
connection state written by the triggered `prepare_request` (if any). -/
structure LoginEffects where
  sessions_saved : List Str
  cookies_set : List (Str × Str)
  prepared : Option ConnState

/-- No effect at all. -/
def noEffects : LoginEffects :=
  { sessions_saved := [], cookies_set := [], prepared := Option.none }

/-- The params keys `login` reads. -/
def usernameKey : Str := "username".data

/-- The params key for the password. -/
def passwordKey : Str := "password".data

/-- `DjangoAuthBackend.login`: read and stringify
`request.params['username']` / `['password']` (`KeyError` / `TypeError`
/ `ValueError` become `RpcInvalidParamsError`, the `Except.error ()`
result); call `authenticate`; on rejection return `False` with no
effects; on success save a fresh session, set the session cookie and
re-run `prepare_request` with the authenticated user, returning `True`.
The outer `Option.none` is an exception escaping from
`prepare_request`. -/
def login (authFn : Str → Str → Option UserRec) (newSessionKey : Str)
    (generic_orm_methods : Bool) (rpc : Rpc) (store : SessionStore)
    (cookies : List (Str × Str)) (prevSubs : Option (Finset Str))
    (params : PyValue) : Option (Except Unit Bool × LoginEffects) :=
  match pyGetItem params usernameKey, pyGetItem params passwordKey with
  | some uv, some pv =>
    match authFn (pyToStr uv) (pyToStr pv) with
    | Option.none => some (Except.ok false, noEffects)
    | some user =>
      match prepare_request generic_orm_methods rpc store cookies
          (some (Identity.user user)) prevSubs with
      | Option.none => Option.none
      | some st =>
        some (Except.ok true,
          { sessions_saved := [newSessionKey],
            cookies_set := [(sessionidName, newSessionKey)],
            prepared := some st })
  | _, _ => some (Except.error (), noEffects)

theorem addOrmMethods_get_or (ps : List Str) (d d' : List (Str × MethodHandle))
    (k : Str) (h : addOrmMethods ps d = some d') :
    dictGet d' k = dictGet d k ∨ dictGet d' k = some MethodHandle.ormCall := by
  induction ps generalizing d with
  | nil =>
    simp only [addOrmMethods, Option.some.injEq] at h
    subst h; exact Or.inl rfl
  | cons p ps ih =>
    cases ha : ormAction p with
    | none => simp [addOrmMethods, ha] at h
    | some a =>
      simp only [addOrmMethods, ha] at h
      by_cases hc : ormActions.contains a
      · rw [if_pos hc] at h
        rcases ih (dictSet d (dbName p) MethodHandle.ormCall) h with h1 | h1
        · by_cases hk : k = dbName p
          · subst hk; rw [h1, dictGet_set_self]; exact Or.inr rfl
          · rw [h1, dictGet_set_ne _ _ _ _ hk]; exact Or.inl rfl
        · exact Or.inr h1
      · rw [if_neg hc] at h
        exact ih d h

theorem addOrmMethods_get_preserve (ps : List Str)
    (d d' : List (Str × MethodHandle)) (k : Str)
    (h : addOrmMethods ps d = some d')
    (hk : ∀ q ∈ ps, dbName q = k → permAllowed q = false) :
    dictGet d' k = dictGet d k := by
  induction ps generalizing d with
  | nil =>
    simp only [addOrmMethods, Option.some.injEq] at h
    subst h; rfl
  | cons p ps ih =>
    cases ha : ormAction p with
    | none => simp [addOrmMethods, ha] at h
    | some a =>
      simp only [addOrmMethods, ha] at h
      by_cases hc : ormActions.contains a
      · have hpa : permAllowed p = true := by
          unfold permAllowed; rw [ha]; exact hc
        have hne : k ≠ dbName p := by
          intro he
          have hcontra := hk p (List.mem_cons_self _ _) he.symm
          rw [hpa] at hcontra; exact Bool.false_ne_true hcontra.symm
        rw [if_pos hc] at h
        rw [ih (dictSet d (dbName p) MethodHandle.ormCall) h
              (fun q hq => hk q (List.mem_cons_of_mem _ hq)),
            dictGet_set_ne _ _ _ _ hne]
      · rw [if_neg hc] at h
        exact ih d h (fun q hq => hk q (List.mem_cons_of_mem _ hq))

theorem addOrmMethods_get_mem (ps : List Str) (d d' : List (Str × MethodHandle))
    (p : Str) (h : addOrmMethods ps d = some d') (hp : p ∈ ps)
    (ha : permAllowed p = true) :
    dictGet d' (dbName p) = some MethodHandle.ormCall := by
  induction ps generalizing d with
  | nil => exact absurd hp (List.not_mem_nil p)
  | cons q ps ih =>
    cases hq : ormAction q with
    | none => simp [addOrmMethods, hq] at h
    | some a =>
      simp only [addOrmMethods, hq] at h
      rcases List.mem_cons.mp hp with hpq | hp'
      · subst hpq
        have hc : ormActions.contains a = true := by
          have hpa := ha
          unfold permAllowed at hpa; rw [hq] at hpa; exact hpa
        rw [if_pos hc] at h
        rcases addOrmMethods_get_or ps _ d' (dbName p) h with h1 | h1
        · rw [h1, dictGet_set_self]
        · exact h1
      · by_cases hc : ormActions.contains a
        · rw [if_pos hc] at h; exact ih _ h hp'
        · rw [if_neg hc] at h; exact ih _ h hp'

theorem regFold_get_preserve (l : List (Str × MethodMeta)) (user : Identity)
    (d : List (Str × MethodHandle)) (k : Str)
    (hk : ∀ nm ∈ l, nm.1 ≠ k) :
    dictGet
      (l.foldl
        (fun d nm =>
          if _is_authorized user nm.2 then dictSet d nm.1 (MethodHandle.registered nm.2)
          else d)
        d) k = dictGet d k := by
  induction l generalizing d with
  | nil => rfl
  | cons nm l ih =>
    rw [List.foldl_cons,
        ih _ (fun q hq => hk q (List.mem_cons_of_mem _ hq))]
    by_cases hA : _is_authorized user nm.2
    · rw [if_pos hA,
          dictGet_set_ne _ _ _ _ (fun he => hk nm (List.mem_cons_self _ _) he.symm)]
    · rw [if_neg hA]

theorem dbName_ne_loginName (q : Str) : dbName q ≠ loginName := by
  intro h
  have h' : 'd' :: ('b' :: '_' :: '_' :: q) = 'l' :: "ogin".data := h
  injection h' with h1 _
  exact absurd h1 (by decide)

theorem dbName_inj {p q : Str} (h : dbName p = dbName q) : p = q := by
  have h' : 'd' :: 'b' :: '_' :: '_' :: p = 'd' :: 'b' :: '_' :: '_' :: q := h
  simpa using h'

theorem filter_recordMatches_nil (records : List Record) :
    records.filter (fun r => recordMatches r []) = records := by
  simp [recordMatches]

theorem filter_not_recordMatches_nil (records : List Record) :
    records.filter (fun r => !(recordMatches r [])) = [] := by
  simp [recordMatches]

/-! Concrete inputs used by counterexamples and witnesses. -/

/-- A store whose primary-key lookup raises `DoesNotExist` and whose
`create` / `save` raise database errors. -/
def cexModel : DataModel :=
  { filter := fun _ => .error .fieldError,
    deleteMatching := fun _ => .error .fieldError,
    create := fun _ => .error .dbError,
    getByPk := fun _ => .error .doesNotExist,
    save := fun _ => .error .dbError }

/-- A record with primary key `1` and no other fields. -/
def obj0 : Record := { pk := .int 1, fields := [] }

/-- A store whose primary-key lookup succeeds but whose `save` raises a
database error. -/
def saveFailModel : DataModel :=
  { filter := fun _ => .ok [],
    deleteMatching := fun _ => .ok [],
    create := fun _ => .ok obj0,
    getByPk := fun _ => .ok obj0,
    save := fun _ => .error .dbError }

/-- An active, authenticated, non-superuser identity with no permissions. -/
def alice : UserRec :=
  { is_active := true, is_authenticated := true, is_superuser := false,
    permissions := [] }

/-- An active, authenticated superuser. -/
def superRoot : UserRec :=
  { is_active := true, is_authenticated := true, is_superuser := true,
    permissions := [] }

/-- An inactive superuser. -/
def inactiveRoot : UserRec :=
  { is_active := false, is_authenticated := true, is_superuser := true,
    permissions := [] }

/-- Metadata with no requirements at all. -/
def trivMeta : MethodMeta :=
  { login_required := false, permissions_required := Option.none,
    tests := Option.none }

/-- Metadata that only requires login. -/
def loginReqMeta : MethodMeta :=
  { login_required := true, permissions_required := Option.none,
    tests := Option.none }

/-- Metadata requiring a permission and carrying an always-failing test. -/
def strictMeta : MethodMeta :=
  { login_required := false,
    permissions_required := some ["shop.view_item".data],
    tests := some [fun _ => false] }

/-- An empty session / user store. -/
def store0 : SessionStore := { sessions := [], users := [] }

/-- An empty method/topic registry. -/
def rpc0 : Rpc := { methods := [], topics := [] }

/-! Claim theorems. -/

/-- C1, counterexample: with a store whose primary-key lookup raises
`DoesNotExist`, the `change` operation propagates that exception instead
of converting it to `InvalidParams` — refuting the claim that every
data-store exception in every generic operation is re-raised as
`InvalidParams`. -/
theorem model_change_uncaught_store_exception :
    _model_change cexModel (.dict [("pk".data, .int 1)]) =
      Outcome.exc PyExc.doesNotExist := rfl

/-- C1, amended: the `view`, `delete` and `add` operations convert every
exception of the underlying store call to `InvalidParams`; the `change`
operation converts only `KeyError` (missing params / missing `pk`), and
any other store exception — `DoesNotExist` from the primary-key lookup
or a failure from `save` — propagates unchanged. -/
theorem adapter_store_exception_policy
    (model : DataModel) (l : List (Str × PyScalar)) (e : PyExc)
    (pk : PyScalar) (obj : Record) :
    (model.filter l = .error e →
      _model_view model (.dict l) = Outcome.invalidParams)
    ∧ (model.deleteMatching l = .error e →
      _model_delete model (.dict l) = Outcome.invalidParams)
    ∧ (l ≠ [] → model.create l = .error e →
      _model_add model (.dict l) = Outcome.invalidParams)
    ∧ (dictGet l "pk".data = some pk → model.getByPk pk = .error e →
      e ≠ PyExc.keyError → _model_change model (.dict l) = Outcome.exc e)
    ∧ (dictGet l "pk".data = some pk → model.getByPk pk = .ok obj →
      model.save { obj with
        fields := applyParams obj.fields (dictRemove l "pk".data) } = .error e →
      e ≠ PyExc.keyError → _model_change model (.dict l) = Outcome.exc e) := by
  refine ⟨?_, ?_, ?_, ?_, ?_⟩
  · intro hf
    by_cases hl : l = []
    · subst hl; simp [_model_view, pyTruthy, hf]
    · simp [_model_view, pyTruthy, List.isEmpty_iff, hl, hf]
  · intro hf
    by_cases hl : l = []
    · subst hl; simp [_model_delete, pyTruthy, hf]
    · simp [_model_delete, pyTruthy, List.isEmpty_iff, hl, hf]
  · intro hl hf
    simp [_model_add, pyTruthy, List.isEmpty_iff, hl, hf]
  · intro hpk hg hne
    cases e <;> first
      | exact absurd rfl hne
      | simp [_model_change, hpk, hg]
  · intro hpk hg hs hne
    cases e <;> first
      | exact absurd rfl hne
      | simp [_model_change, hpk, hg, hs]

/-- C1, witness for the amended theorem: a store failing each operation,
exercised on concrete params. -/
theorem adapter_store_exception_policy_witness :
    (_model_view cexModel (.dict [("number".data, .int 3)]) = Outcome.invalidParams)
    ∧ (_model_delete cexModel (.dict [("number".data, .int 3)]) = Outcome.invalidParams)
    ∧ (_model_add cexModel (.dict [("number".data, .int 3)]) = Outcome.invalidParams)
    ∧ (_model_change cexModel (.dict [("pk".data, .int 1)]) =
        Outcome.exc PyExc.doesNotExist)
    ∧ (_model_change saveFailModel (.dict [("pk".data, .int 1)]) =
        Outcome.exc PyExc.dbError) :=
  ⟨(adapter_store_exception_policy cexModel _ PyExc.fieldError (.int 1) obj0).1 rfl,
   (adapter_store_exception_policy cexModel _ PyExc.fieldError (.int 1) obj0).2.1 rfl,
   (adapter_store_exception_policy cexModel _ PyExc.dbError (.int 1) obj0).2.2.1
     (by simp) rfl,
   (adapter_store_exception_policy cexModel _ PyExc.doesNotExist (.int 1) obj0).2.2.2.1
     rfl rfl (by decide),
   (adapter_store_exception_policy saveFailModel _ PyExc.dbError (.int 1) obj0).2.2.2.2
     rfl rfl rfl (by decide)⟩

/-- C2: the login-required gate never yields to superuser status — any
identity that is not active or not authenticated is denied a
login-required method — while for an active, authenticated superuser the
decision ignores the permission and test gates entirely. -/
theorem superuser_login_required_asymmetry :
    (∀ (i : Identity) (m : MethodMeta), m.login_required = true →
        (i.is_active = false ∨ i.is_authenticated = false) →
        _is_authorized i m = false)
    ∧ (∀ (i : Identity) (m : MethodMeta), i.is_superuser = true →
        _is_authorized i m =
          (!m.login_required || (i.is_active && i.is_authenticated))) := by
  constructor
  · intro i m hl hd
    rcases hd with hd | hd <;> simp [_is_authorized, hl, hd]
  · intro i m hs
    cases hl : m.login_required <;>
      cases ha : i.is_active <;>
        cases hb : i.is_authenticated <;>
          simp [_is_authorized, hl, ha, hb, hs]

/-- C2, witness: an inactive superuser is denied the login-required
method; an active, authenticated superuser is allowed a method whose
permission requirement it lacks and whose test always fails. -/
theorem superuser_login_required_asymmetry_witness :
    _is_authorized (Identity.user inactiveRoot) loginReqMeta = false
    ∧ _is_authorized (Identity.user superRoot) strictMeta =
        (!strictMeta.login_required ||
          ((Identity.user superRoot).is_active &&
            (Identity.user superRoot).is_authenticated)) :=
  ⟨superuser_login_required_asymmetry.1 (Identity.user inactiveRoot) loginReqMeta
      rfl (Or.inl rfl),
   superuser_login_required_asymmetry.2 (Identity.user superRoot) strictMeta rfl⟩

/-- C3: for every cookie dict whose `sessionid` value is absent or empty,
names no stored session, or names a session whose decoded user id
matches no stored user, `get_user` returns `AnonymousUser()` (and, being
total, never raises). -/
theorem get_user_degrades_to_anonymous (store : SessionStore)
    (cookies : List (Str × Str))
    (h : ((dictGet cookies sessionidName).getD [] = ([] : Str))
      ∨ dictGet store.sessions ((dictGet cookies sessionidName).getD []) =
          Option.none
      ∨ ∃ uidOpt,
          dictGet store.sessions ((dictGet cookies sessionidName).getD []) =
            some uidOpt
          ∧ uidOpt.bind (fun uid => dictGet store.users uid) = Option.none) :
    get_user store cookies = Identity.anonymous := by
  rcases h with h | h | ⟨uidOpt, h1, h2⟩
  · simp [get_user, h]
  · by_cases hsk : (dictGet cookies sessionidName).getD [] = ([] : Str)
    · simp [get_user, hsk]
    · simp [get_user, hsk, h]
  · by_cases hsk : (dictGet cookies sessionidName).getD [] = ([] : Str)
    · simp [get_user, hsk]
    · simp [get_user, hsk, h1, h2]

/-- C3, witness: an empty cookie dict resolves to Anonymous. -/
theorem get_user_degrades_to_anonymous_witness :
    get_user store0 [] = Identity.anonymous :=
  get_user_degrades_to_anonymous store0 [] (Or.inl rfl)

/-- C9: absent (delivered as null by the protocol layer), null, or empty
params are normalized to the empty criteria dict by `params or {}`, and
an empty criteria dict matches every record — so a generic `view` with
no params returns every record and a generic `delete` with no params
deletes every record of the model. -/
theorem generic_no_params_matches_all (records : List Record) :
    (_model_view (listModel records) (.scalar .none) =
      Outcome.ok (records.map dump_model_object))
    ∧ (_model_view (listModel records) (.dict []) =
      Outcome.ok (records.map dump_model_object))
    ∧ (_model_delete (listModel records) (.scalar .none) =
      Outcome.ok (true, []))
    ∧ (_model_delete (listModel records) (.dict []) =
      Outcome.ok (true, [])) := by
  refine ⟨?_, ?_, ?_, ?_⟩ <;>
    simp [_model_view, _model_delete, pyTruthy, listModel,
      filter_recordMatches_nil, filter_not_recordMatches_nil]

/-- A topic name used in witnesses. -/
def chatName : Str := "chat".data

/-- Another topic name used in witnesses. -/
def secretName : Str := "secret".data

/-- The registry with a freely subscribable `chat` topic and a
login-required `secret` topic. -/
def rpcTopics : Rpc :=
  { methods := [], topics := [(chatName, trivMeta), (secretName, loginReqMeta)] }

/-- The state `prepare_request` computes for an anonymous user over
`rpcTopics` when the previous subscriptions were `{chat, secret}`. -/
def wSubState : ConnState :=
  { user := Identity.anonymous,
    methods := [(loginName, MethodHandle.loginMethod)],
    topics := insert chatName (∅ : Finset Str),
    subscriptions :=
      insert chatName (∅ : Finset Str) ∩ ({chatName, secretName} : Finset Str) }

/-- C4: after every rebuild, the subscription set is exactly the new
topic set intersected with the previous subscriptions (so subscriptions
to newly disallowed topics are silently dropped), and in particular is a
subset of the allowed topics. -/
theorem rebuild_subscriptions_subset (generic : Bool) (rpc : Rpc)
    (store : SessionStore) (cookies : List (Str × Str))
    (userArg : Option Identity) (prevSubs : Option (Finset Str)) (st : ConnState)
    (h : prepare_request generic rpc store cookies userArg prevSubs = some st) :
    st.subscriptions = st.topics ∩ prevSubs.getD ∅
    ∧ st.subscriptions ⊆ st.topics := by
  simp only [prepare_request] at h
  rcases Option.map_eq_some'.mp h with ⟨m1, hX, hst⟩
  have hT := congrArg ConnState.topics hst
  have hS := congrArg ConnState.subscriptions hst
  simp only at hT hS
  rw [← hS, ← hT]
  exact ⟨rfl, Finset.inter_subset_left⟩

/-- C4, witness: an anonymous rebuild over `rpcTopics` with previous
subscriptions `{chat, secret}` drops the disallowed `secret` topic. -/
theorem rebuild_subscriptions_subset_witness :
    wSubState.subscriptions =
      wSubState.topics ∩ (some ({chatName, secretName} : Finset Str)).getD ∅
    ∧ wSubState.subscriptions ⊆ wSubState.topics :=
  rebuild_subscriptions_subset false rpcTopics store0 []
    (some Identity.anonymous) (some {chatName, secretName}) wSubState rfl

/-- C5: rebuilding a second time with the same identity and registries,
feeding in the subscriptions produced by the first rebuild, yields the
identical connection state. -/
theorem rebuild_idempotent (generic : Bool) (rpc : Rpc) (store : SessionStore)
    (cookies : List (Str × Str)) (userArg : Option Identity)
    (prevSubs : Option (Finset Str)) (st : ConnState)
    (h : prepare_request generic rpc store cookies userArg prevSubs = some st) :
    prepare_request generic rpc store cookies userArg (some st.subscriptions) =
      some st := by
  simp only [prepare_request] at h ⊢
  rcases Option.map_eq_some'.mp h with ⟨m1, hX, hst⟩
  have hT := congrArg ConnState.topics hst
  have hS := congrArg ConnState.subscriptions hst
  simp only at hT hS
  rw [hX, Option.map_some', Option.some.injEq]
  rw [← hst]
  simp only [Option.getD_some]
  congr 1
  rw [← Finset.inter_assoc, Finset.inter_self]

/-- C5, witness: the anonymous rebuild over `rpcTopics` is idempotent on
its own output. -/
theorem rebuild_idempotent_witness :
    prepare_request false rpcTopics store0 [] (some Identity.anonymous)
      (some wSubState.subscriptions) = some wSubState :=
  rebuild_idempotent false rpcTopics store0 [] (some Identity.anonymous)
    (some {chatName, secretName}) wSubState rfl

/-- A registry that itself registers a method under the name `login`. -/
def rpcWithLogin : Rpc := { methods := [(loginName, trivMeta)], topics := [] }

/-- C6, counterexample: if the static registry itself registers a method
named `login` with no requirements, a rebuild for an authenticated
identity still ends with a `login` entry in the method map — refuting
the claim that `login` is absent for every authenticated identity. -/
theorem login_method_present_for_authenticated :
    ((prepare_request false rpcWithLogin store0 [] (some (Identity.user alice))
        Option.none).map
      (fun st => (dictGet st.methods loginName).isSome)) = some true := rfl

/-- C6, amended: provided the static registry registers no method named
`login`, after a rebuild the method map contains a `login` entry exactly
when the resolved identity is Anonymous. -/
theorem login_method_iff_anonymous (generic : Bool) (rpc : Rpc)
    (store : SessionStore) (cookies : List (Str × Str))
    (userArg : Option Identity) (prevSubs : Option (Finset Str)) (st : ConnState)
    (hreg : ∀ nm ∈ rpc.methods, nm.1 ≠ loginName)
    (h : prepare_request generic rpc store cookies userArg prevSubs = some st) :
    (dictGet st.methods loginName).isSome = true ↔
      st.user = Identity.anonymous := by
  simp only [prepare_request] at h
  rcases Option.map_eq_some'.mp h with ⟨m1, hX, hst⟩
  have hU := congrArg ConnState.user hst
  have hM := congrArg ConnState.methods hst
  simp only at hU hM
  rw [← hM, ← hU]
  rw [regFold_get_preserve _ _ _ _ hreg]
  have hm1 : dictGet m1 loginName =
      dictGet (if resolve_user store cookies userArg = Identity.anonymous
               then dictSet [] loginName MethodHandle.loginMethod
               else []) loginName := by
    by_cases hg : generic
    · rw [if_pos hg] at hX
      exact addOrmMethods_get_preserve _ _ _ _ hX
        (fun q _ he => absurd he (dbName_ne_loginName q))
    · rw [if_neg hg] at hX
      injection hX with hX'
      rw [← hX']
  rw [hm1]
  by_cases hu : resolve_user store cookies userArg = Identity.anonymous
  · simp [hu, dictGet_set_self]
  · simp [hu, dictGet]

/-- C6, witness for the amended theorem: over the empty registry, the
anonymous rebuild's method map holds `login`. -/
theorem login_method_iff_anonymous_witness :
    (dictGet wSubState.methods loginName).isSome = true ↔
      wSubState.user = Identity.anonymous :=
  login_method_iff_anonymous false rpcTopics store0 [] (some Identity.anonymous)
    (some {chatName, secretName}) wSubState (by simp [rpcTopics]) rfl

/-- C7: when generic data access is enabled, for every permission in the
resolved identity's permission set — provided the registry does not
itself shadow the synthesized name — the rebuilt method map binds
`db__<permission>` to the generic CRUD dispatcher exactly when the
permission's action segment (`split('.')[1].split('_')[0]`) is one of
`view`, `add`, `change`, `delete`; a permission outside that set
produces no entry. -/
theorem orm_method_synthesis (rpc : Rpc) (store : SessionStore)
    (cookies : List (Str × Str)) (userArg : Option Identity)
    (prevSubs : Option (Finset Str)) (st : ConnState) (p : Str)
    (h : prepare_request true rpc store cookies userArg prevSubs = some st)
    (hp : p ∈ st.user.get_all_permissions)
    (hreg : ∀ nm ∈ rpc.methods, nm.1 ≠ dbName p) :
    (permAllowed p = true →
      dictGet st.methods (dbName p) = some MethodHandle.ormCall)
    ∧ (permAllowed p = false →
      dictGet st.methods (dbName p) = Option.none) := by
  simp only [prepare_request, if_true] at h
  rcases Option.map_eq_some'.mp h with ⟨m1, hX, hst⟩
  have hU := congrArg ConnState.user hst
  have hM := congrArg ConnState.methods hst
  simp only at hU hM
  rw [← hU] at hp
  rw [← hM]
  rw [regFold_get_preserve _ _ _ _ hreg]
  constructor
  · intro hPA
    exact addOrmMethods_get_mem _ _ _ _ hX hp hPA
  · intro hPA
    rw [addOrmMethods_get_preserve _ _ _ _ hX
      (fun q _ he => by rw [dbName_inj he]; exact hPA)]
    by_cases hu : resolve_user store cookies userArg = Identity.anonymous
    · rw [if_pos hu,
          dictGet_set_ne _ _ _ _ (dbName_ne_loginName p)]
      rfl
    · rw [if_neg hu]
      rfl

/-- An active non-superuser holding a whitelisted and a non-whitelisted
permission. -/
def bob : UserRec :=
  { is_active := true, is_authenticated := true, is_superuser := false,
    permissions := ["shop.view_item".data, "shop.frobnicate_item".data] }

/-- The state `prepare_request` computes for `bob` with generic ORM
methods enabled over the empty registry. -/
def wBobState : ConnState :=
  { user := Identity.user bob,
    methods := [(dbName "shop.view_item".data, MethodHandle.ormCall)],
    topics := (∅ : Finset Str),
    subscriptions := (∅ : Finset Str) ∩ (∅ : Finset Str) }

/-- C7, witness: `shop.view_item` synthesizes `db__shop.view_item`;
`shop.frobnicate_item` synthesizes nothing. -/
theorem orm_method_synthesis_witness :
    (dictGet wBobState.methods (dbName "shop.view_item".data) =
      some MethodHandle.ormCall)
    ∧ (dictGet wBobState.methods (dbName "shop.frobnicate_item".data) =
      Option.none) :=
  ⟨(orm_method_synthesis rpc0 store0 [] (some (Identity.user bob)) (some ∅)
      wBobState "shop.view_item".data rfl (by decide) (by simp [rpc0])).1 rfl,
   (orm_method_synthesis rpc0 store0 [] (some (Identity.user bob)) (some ∅)
      wBobState "shop.frobnicate_item".data rfl (by decide) (by simp [rpc0])).2 rfl⟩

/-- C8: when `authenticate` rejects the credentials, `login` returns
`False` (not an error) and has no effects: no session saved, no cookie
set, no `prepare_request` rebuild triggered. -/
theorem login_rejected_no_effects (authFn : Str → Str → Option UserRec)
    (newSessionKey : Str) (generic : Bool) (rpc : Rpc) (store : SessionStore)
    (cookies : List (Str × Str)) (prevSubs : Option (Finset Str))
    (params : PyValue) (uv pv : PyScalar)
    (hu : pyGetItem params usernameKey = some uv)
    (hp : pyGetItem params passwordKey = some pv)
    (ha : authFn (pyToStr uv) (pyToStr pv) = Option.none) :
    login authFn newSessionKey generic rpc store cookies prevSubs params =
      some (Except.ok false, noEffects) := by
  simp [login, hu, hp, ha]

/-- An identity store that rejects every credential pair. -/
def rejectAll : Str → Str → Option UserRec := fun _ _ => Option.none

/-- C8, witness: a concrete rejected `login("alice", "wrong")`. -/
theorem login_rejected_no_effects_witness :
    login rejectAll "k1".data false rpc0 store0 [] Option.none
      (.dict [(usernameKey, .str "alice".data), (passwordKey, .str "wrong".data)]) =
      some (Except.ok false, noEffects) :=
  login_rejected_no_effects rejectAll "k1".data false rpc0 store0 [] Option.none
    (.dict [(usernameKey, .str "alice".data), (passwordKey, .str "wrong".data)])
    (.str "alice".data) (.str "wrong".data) rfl rfl rfl

/-- C9, witness: on a one-record store, a `view` with null params returns
the record and a `delete` with null params empties the store. -/
theorem generic_no_params_matches_all_witness :
    (_model_view (listModel [obj0]) (.scalar .none) =
      Outcome.ok ([obj0].map dump_model_object))
    ∧ (_model_delete (listModel [obj0]) (.scalar .none) =
      Outcome.ok (true, [])) :=
  ⟨(generic_no_params_matches_all [obj0]).1,
   (generic_no_params_matches_all [obj0]).2.2.1⟩

end AiohttpJsonRpc
